import Mathlib

namespace MRB

/-!
Verification of the MeetingRoomBooking sheet-reconciliation layer.

This file is a shallow embedding, in Lean 4, of the pure computational core of
the repository's Google-Sheets booking code (the newer `googleSheets.js`
variant and the conflict check in `BookingModal.jsx`), together with proofs of
the behavioural properties stated in the specification.

Modelling conventions:
* JavaScript `Date` values are modelled by `JsDate` (calendar date plus
  minute-of-day); `Date.prototype.getTime` is modelled by a civil-calendar
  linearisation (`daysFromCivil`), which preserves the ordering of instants.
* Machine integers are `Nat`/`Int`; all arithmetic in the modelled code stays
  far below any overflow boundary.
* Network calls are modelled by passing their outcome (`Except`/`Option`
  values) as explicit parameters; a thrown JS exception is an `Except.error`
  carrying the message string.
* Time-of-day strings such as "09:30" produced by the code's own writers are
  always zero-padded `HH:mm`; where a function consumes values it produced
  itself, the already-parsed `(hour, minute)` pair is carried instead.
-/

/-! ## JavaScript string and number primitives -/

/-- JavaScript `String.prototype.trim`: strip leading and trailing
whitespace. (Implemented over the character list so that it evaluates inside
the kernel.) -/
def jsTrim (s : String) : String :=
  ⟨((s.data.dropWhile Char.isWhitespace).reverse.dropWhile
      Char.isWhitespace).reverse⟩

/-- JavaScript `String.prototype.toUpperCase` (ASCII, which covers every
string the modelled code uppercases). -/
def jsToUpper (s : String) : String := ⟨s.data.map Char.toUpper⟩

def splitOnCharGo (sep : Char) : List Char → List Char → List (List Char)
  | [], acc => [acc.reverse]
  | c :: rest, acc =>
    if c == sep then acc.reverse :: splitOnCharGo sep rest []
    else splitOnCharGo sep rest (c :: acc)

/-- JavaScript `s.split(":")`. -/
def jsSplitColon (s : String) : List String :=
  (splitOnCharGo ':' s.data []).map (fun l => ⟨l⟩)

/-- Numeric value of a digit list (most significant first). -/
def natOfDigits (ds : List Char) : Nat :=
  ds.foldl (fun a c => 10 * a + (c.toNat - 48)) 0

/-- JavaScript `parseInt(s, 10)`: skip leading whitespace, optional sign,
then the longest digit run; `NaN` (here `none`) if no digits. -/
def jsParseInt (s : String) : Option Int :=
  let cs := s.data.dropWhile Char.isWhitespace
  let signAndRest : Int × List Char :=
    match cs with
    | '-' :: r => (-1, r)
    | '+' :: r => (1, r)
    | r => (1, r)
  let digits := signAndRest.2.takeWhile Char.isDigit
  if digits.isEmpty then none
  else some (signAndRest.1 * (natOfDigits digits : Int))

/-- Bool test: `n` occurs at the start of `h` (character lists). -/
def leadsWith : List Char → List Char → Bool
  | [], _ => true
  | _ :: _, [] => false
  | c :: cs, d :: ds => c == d && leadsWith cs ds

/-- Bool test: `n` occurs contiguously somewhere in `h` (character lists). -/
def occursIn (n : List Char) (h : List Char) : Bool :=
  match h with
  | [] => n.isEmpty
  | _ :: t => leadsWith n h || occursIn n t

/-- JavaScript `s.includes(sub)`. -/
def jsIncludes (s sub : String) : Bool := occursIn sub.data s.data

/-- Zero-pad a number to two digits, as `String(x).padStart(2, "0")`. -/
def pad2 (n : Nat) : String := if n < 10 then "0" ++ toString n else toString n

/-! ## Calendar arithmetic (JavaScript `Date` model)

`daysFromCivil y m d` counts days of the proleptic Gregorian calendar from a
fixed epoch, for year `y ≥ 1`, month `m` 1-based, day `d ≥ 1`; it linearises
`Date` values exactly as `Date.prototype.getTime` does (up to an affine map),
so all order comparisons agree with the JavaScript code. -/

def isLeapYear (y : Nat) : Bool :=
  (y % 4 == 0 && y % 100 != 0) || y % 400 == 0

/-- JavaScript `new Date(y, m, 0).getDate()` for 0-based month index `m - 1`:
the number of days in the month. -/
def daysInMonth (y : Nat) (m0 : Nat) : Nat :=
  [31, if isLeapYear y then 29 else 28, 31, 30, 31, 30,
   31, 31, 30, 31, 30, 31].getD m0 31

/-- Day count of the civil date `(y, m1, d)` (month 1-based). -/
def daysFromCivil (y : Nat) (m1 : Nat) (d : Nat) : Nat :=
  let yAdj := if m1 ≤ 2 then y - 1 else y
  let mp := (m1 + 9) % 12
  (365 * yAdj - yAdj / 100) + yAdj / 4 + yAdj / 400 + (153 * mp + 2) / 5 + (d - 1)

/-- JavaScript `Date.prototype.getDay` (0 = Sunday). -/
def jsGetDay (y : Nat) (m1 : Nat) (d : Nat) : Nat :=
  (daysFromCivil y m1 d + 3) % 7

/-- A JavaScript `Date`: calendar date (0-based month, as in the code) plus
minute of day. -/
structure JsDate where
  year : Nat
  month : Nat
  day : Nat
  minute : Nat
deriving DecidableEq

/-- Model of `Date.prototype.getTime`, up to a fixed affine rescaling (minutes instead
of milliseconds); order-isomorphic to the JavaScript value. -/
def JsDate.getTime (t : JsDate) : Nat :=
  1440 * daysFromCivil t.year (t.month + 1) t.day + t.minute

/-! ## C1 — pre-create conflict check in `BookingModal.jsx` (handleSubmit) -/

/-- A booking as held in the Dashboard's `bookings` state. -/
structure Booking where
  id : String
  room_id : String
  start_time : JsDate
  end_time : JsDate
deriving DecidableEq

/-- The predicate of the `bookings.find(...)` call in `handleSubmit`:
same target room, not the booking being edited, same calendar date as the
selected date, and time overlap `newStart < existingEnd && newEnd >
existingStart`. -/
def bmConflictPred (targetRoomId : String) (selY selM selD : Nat)
    (isEditing : Bool) (originalId : String) (s e : Nat) (b : Booking) : Bool :=
  if b.room_id != targetRoomId then false
  else if isEditing && (originalId == b.id) then false
  else if b.start_time.year != selY || b.start_time.month != selM
      || b.start_time.day != selD then false
  else decide (s < b.end_time.getTime) && decide (b.start_time.getTime < e)

/-- The `conflictingBooking` value from `handleSubmit`: the first existing booking the
candidate interval collides with, or `none`. -/
def conflictingBooking (targetRoomId : String) (selY selM selD : Nat)
    (isEditing : Bool) (originalId : String) (s e : Nat)
    (bookings : List Booking) : Option Booking :=
  bookings.find? (bmConflictPred targetRoomId selY selM selD isEditing originalId s e)

/-! ## C2 — fixed-schedule-vs-fixed-schedule check in `createFixedSchedule` -/

/-- A fixed schedule as produced by `fetchFixedSchedules` (times already
parsed from their zero-padded `HH:mm` strings). -/
structure FixedSchedule where
  id : String
  room_id : String
  staff_name : String
  dayOfWeek : Nat
  startHour : Nat
  startMin : Nat
  endHour : Nat
  endMin : Nat
deriving DecidableEq

def FixedSchedule.startMinutes (s : FixedSchedule) : Nat :=
  s.startHour * 60 + s.startMin

def FixedSchedule.endMinutes (s : FixedSchedule) : Nat :=
  s.endHour * 60 + s.endMin

/-- The schedule's `start_time` string, `HH:mm`. -/
def FixedSchedule.startStr (s : FixedSchedule) : String :=
  pad2 s.startHour ++ ":" ++ pad2 s.startMin

/-- The schedule's `end_time` string, `HH:mm`. -/
def FixedSchedule.endStr (s : FixedSchedule) : String :=
  pad2 s.endHour ++ ":" ++ pad2 s.endMin

/-- The conflict message thrown by `createFixedSchedule` when the candidate
overlaps an existing fixed schedule. -/
def fsConflictMsg (ex : FixedSchedule) : String :=
  "Cannot create fixed schedule: conflicts with existing fixed schedule ("
    ++ ex.staff_name ++ ") from " ++ ex.startStr ++ " to " ++ ex.endStr

/-- One loop step of the schedule-vs-schedule check: same room and
`candStart < exEnd && candEnd > exStart` on minutes since midnight. -/
def fsOverlapPred (cand : FixedSchedule) (ex : FixedSchedule) : Bool :=
  (ex.room_id == cand.room_id)
    && decide (cand.startMinutes < ex.endMinutes)
    && decide (cand.endMinutes > ex.startMinutes)

/-- The fixed-schedule conflict loop of `createFixedSchedule`: throws (here
`Except.error`) on the first overlapping same-room schedule. -/
def checkFixedScheduleConflicts (cand : FixedSchedule)
    (existing : List FixedSchedule) : Except String Unit :=
  match existing.find? (fsOverlapPred cand) with
  | some ex => .error (fsConflictMsg ex)
  | none => .ok ()

/-! ## C5 — fixed-schedule conflict check inside `createBooking` -/

/-- A booking-creation request (`{ room_id, start_time, end_time }`). -/
structure BookingReq where
  room_id : String
  start_time : JsDate
  end_time : JsDate
deriving DecidableEq

/-- The conflict message thrown by `createBooking` when the request overlaps a
fixed schedule (`schedule.staff_name || "Fixed Schedule"`). -/
def bookingFixedConflictMsg (sch : FixedSchedule) : String :=
  "Cannot create booking: conflicts with fixed schedule ("
    ++ (if sch.staff_name = "" then "Fixed Schedule" else sch.staff_name)
    ++ ") from " ++ sch.startStr ++ " to " ++ sch.endStr

/-- One loop step of `createBooking`'s fixed-schedule check: the schedule
applies to the booking date's day of week, is for the same room, and its
time-of-day range projected onto the booking's date overlaps the booking. -/
def bookingFixedPred (b : BookingReq) (sch : FixedSchedule) : Bool :=
  (sch.dayOfWeek == jsGetDay b.start_time.year (b.start_time.month + 1)
      b.start_time.day)
    && (sch.room_id == b.room_id)
    && decide (b.start_time.getTime <
        (JsDate.mk b.start_time.year b.start_time.month b.start_time.day
          sch.endMinutes).getTime)
    && decide ((JsDate.mk b.start_time.year b.start_time.month b.start_time.day
          sch.startMinutes).getTime < b.end_time.getTime)

/-- The fixed-schedule conflict loop of `createBooking`: throws on the first
applicable overlapping schedule. -/
def checkBookingFixedConflict (b : BookingReq) (schedules : List FixedSchedule) :
    Except String Unit :=
  match schedules.find? (bookingFixedPred b) with
  | some sch => .error (bookingFixedConflictMsg sch)
  | none => .ok ()

/-- Model of `createBooking` up to its first sheet mutation: the conflict check runs
first, and only if it passes is the planned sequence of sheet writes
performed (returned). An error therefore implies no mutation. -/
def createBookingModel (b : BookingReq) (schedules : List FixedSchedule)
    (writes : List String) : Except String (List String) :=
  match checkBookingFixedConflict b schedules with
  | .error e => .error e
  | .ok _ => .ok writes

/-! ## C10 — conflict-check try/catch wrappers

In `createBooking` and `createFixedSchedule` each pre-write conflict check is
wrapped in `try { ... } catch (error)`; the catch re-throws only when the
error message contains the operation's own conflict-message marker, and
otherwise logs a warning and lets the write proceed. -/

/-- The catch handler of each conflict-check wrapper: re-throw the check's
error only when its message contains `marker`; otherwise swallow it and
continue to the write. -/
def conflictCatchGuard (marker : String) (checkResult : Except String Unit) :
    Except String Unit :=
  match checkResult with
  | .ok _ => .ok ()
  | .error e => if jsIncludes e marker then .error e else .ok ()

/-! ## C4 — `updateBooking`: create-then-delete with row-shift correction

`updateBooking` is modelled as a function of the outcomes of its three
network phases: locating the original row (`findBookingRow`, whose own
failure is caught and treated as "not located"), creating the new row
(`createBooking`), and deleting the old row (whose failure is caught and
swallowed). The sheet operations it issues are recorded in order. -/

/-- The located original row: 0-based row index and tab id
(both integers after `parseInt`). -/
structure LocatedTarget where
  realRowIndex : Int
  gid : Int
deriving DecidableEq

/-- The result of `createBooking`: 1-based row number of the inserted row and
the tab it went to. -/
structure CreateResult where
  rowNumber : Int
  gid : Int
deriving DecidableEq

/-- A sheet mutation issued by `updateBooking`, in issue order. -/
inductive SheetEvent where
  | createRow (rowNumber : Int) (gid : Int)
  | deleteRow (startIndex : Int) (gid : Int)
deriving DecidableEq

/-- The deletion-index correction of `updateBooking`: if the new row went to
the same tab and its 0-based index is at or above the old row's index, the
old row has shifted down by one. -/
def updateDeleteIndex (t : LocatedTarget) (cr : CreateResult) : Int :=
  if cr.gid = t.gid then
    if cr.rowNumber - 1 ≤ t.realRowIndex then t.realRowIndex + 1
    else t.realRowIndex
  else t.realRowIndex

/-- Model of `updateBooking`, as a function of its phase outcomes. `deleteSucceeds`
records whether the delete request succeeds; its failure is caught, so it
cannot influence the returned value. -/
def updateBookingModel (target : Option LocatedTarget)
    (createRes : Except String CreateResult) (deleteSucceeds : Bool) :
    Except String (CreateResult × List SheetEvent) :=
  match createRes with
  | .error e => .error ("Update failed: Could not create new booking. " ++ e)
  | .ok cr =>
    match target with
    | none => .ok (cr, [.createRow cr.rowNumber cr.gid])
    | some t =>
      .ok (cr, [.createRow cr.rowNumber cr.gid,
                .deleteRow (updateDeleteIndex t cr) t.gid])

/-! ## C8 — fetch operations swallow network failures at the Facade boundary

Both `fetchBookings` and `fetchFixedSchedules` have the shape
`try { const resp = await fetch(csvUrl); ...; return new Promise(...) }
catch (error) { console.error(...); return []; }`: a failure of the awaited
fetch phase is caught and an empty list is returned as if the fetch had
succeeded; only a rejection of the returned CSV-parse promise (which the
`try` does not cover, the promise being returned rather than awaited)
propagates to the caller. -/

/-- Synthetic booking produced for the UI (also used by C6 below). -/
structure SynthBooking where
  id : String
  room_id : String
  title : String
  requested_by : String
  start_time : JsDate
  end_time : JsDate
  isFixedSchedule : Bool
deriving DecidableEq

/-- Model of `fetchBookings` as a function of its fetch-phase outcome and of the CSV
parse continuation. -/
def fetchBookingsModel (fetchCsv : Except String String)
    (parseCsv : String → Except String (List SynthBooking)) :
    Except String (List SynthBooking) :=
  match fetchCsv with
  | .error _ => .ok []
  | .ok csv => parseCsv csv

/-- Model of `fetchFixedSchedules` as a function of its fetch-phase outcome and of the
CSV parse continuation. -/
def fetchFixedSchedulesModel (fetchCsv : Except String String)
    (parseCsv : String → Except String (List FixedSchedule)) :
    Except String (List FixedSchedule) :=
  match fetchCsv with
  | .error _ => .ok []
  | .ok csv => parseCsv csv

/-! ## C6 — `convertFixedSchedulesToBookings` -/

/-- The real current date (`new Date()` truncated to its calendar date);
month is 0-based as in JavaScript. -/
structure Today where
  year : Nat
  month : Nat
  day : Nat
deriving DecidableEq

/-- The synthetic booking built for schedule `s` on day `day` of the viewed
month. -/
def fixedToBooking (s : FixedSchedule) (year monthIndex day : Nat) :
    SynthBooking where
  id := "fixed-" ++ s.id ++ "-" ++ toString day
  room_id := s.room_id
  title := "Fixed: " ++ s.staff_name
  requested_by := if s.staff_name = "" then "Fixed Schedule" else s.staff_name
  start_time := ⟨year, monthIndex, day, s.startMinutes⟩
  end_time := ⟨year, monthIndex, day, s.endMinutes⟩
  isFixedSchedule := true

/-- Model of `convertFixedSchedulesToBookings(fixedSchedules, year, monthIndex)`,
with `new Date()` passed explicitly as `today`. -/
def convertFixedSchedulesToBookings (fixedSchedules : List FixedSchedule)
    (year monthIndex : Nat) (today : Today) : List SynthBooking :=
  if year != today.year || monthIndex != today.month then []
  else
    fixedSchedules.flatMap (fun s =>
      (List.range (daysInMonth year monthIndex)).filterMap (fun d0 =>
        let day := d0 + 1
        if s.dayOfWeek == jsGetDay year (monthIndex + 1) day then
          if daysFromCivil today.year (today.month + 1) today.day ≤
              daysFromCivil year (monthIndex + 1) day then
            some (fixedToBooking s year monthIndex day)
          else none
        else none))

/-! ## C9 — `getMonthSheetGID` for future months with no matching tab

The resolver is modelled on an empty cache, as a function of the target
month, the real current month, the (deterministic) outcome of
`detectGidViaCSV`, and the tab list returned by the authenticated metadata
query (`none` when that query fails or its response is not ok). -/

def monthNamesUpper : List String :=
  ["JANUARY", "FEBRUARY", "MARCH", "APRIL", "MAY", "JUNE", "JULY", "AUGUST",
   "SEPTEMBER", "OCTOBER", "NOVEMBER", "DECEMBER"]

def monthNamesReadable : List String :=
  ["January", "February", "March", "April", "May", "June", "July", "August",
   "September", "October", "November", "December"]

/-- A tab's properties as returned by the metadata query. -/
structure SheetProps where
  title : String
  sheetId : String
deriving DecidableEq

/-- The two matching passes over the tab list: first month-name and
(year or current-month), then month-name alone. -/
def apiFindSheet (sheets : List SheetProps) (monthName yearStr : String)
    (targetMonthIsTodayMonth : Bool) : Option SheetProps :=
  match sheets.find? (fun s => jsIncludes (jsToUpper s.title) monthName
      && (jsIncludes (jsToUpper s.title) yearStr || targetMonthIsTodayMonth)) with
  | some s => some s
  | none => sheets.find? (fun s => jsIncludes (jsToUpper s.title) monthName)

/-- The user-actionable error thrown for a future month with no tab. -/
def futureMonthMsg (readable monthName yearStr : String) : String :=
  "Unable to book for " ++ readable ++ " " ++ yearStr
    ++ ". The sheet for this month doesn't exist yet. Please create a sheet named \""
    ++ monthName ++ " " ++ yearStr ++ "\" or \"" ++ readable ++ " " ++ yearStr
    ++ "\" in your Google Spreadsheet before booking."

/-- Model of `getMonthSheetGID` (uncached path): CSV probe first for the current
month, then the metadata query's two passes, then the CSV probe as public
fallback; an unresolved future month throws the user-actionable message, an
unresolved current/past month falls back to GID "0". -/
def getMonthSheetGIDModel (tY tM todayY todayM : Nat) (csvGid : Option String)
    (api : Option (List SheetProps)) : Except String String :=
  let monthName := monthNamesUpper.getD tM ""
  let readable := monthNamesReadable.getD tM ""
  let yearStr := toString tY
  let isCurrentMonth := tY == todayY && tM == todayM
  match (if isCurrentMonth then csvGid else none) with
  | some g => .ok g
  | none =>
    let apiRes : Option String :=
      match api with
      | none => none
      | some sheets =>
        (apiFindSheet sheets monthName yearStr (tM == todayM)).map (·.sheetId)
    match apiRes with
    | some g => .ok g
    | none =>
      match csvGid with
      | some g => .ok g
      | none =>
        if todayY < tY || (tY == todayY && todayM < tM) then
          .error (futureMonthMsg readable monthName yearStr)
        else .ok "0"

/-- The enclosing catch of `getMonthSheetGID`: its own "Unable to book for"
message is re-thrown as-is, other failures are wrapped. -/
def getMonthSheetGIDWrapped (tY tM todayY todayM : Nat)
    (csvGid : Option String) (api : Option (List SheetProps)) :
    Except String String :=
  match getMonthSheetGIDModel tY tM todayY todayM csvGid api with
  | .ok g => .ok g
  | .error e =>
    if jsIncludes e "Unable to book for" then .error e
    else .error ("Failed to access the sheet for "
      ++ monthNamesReadable.getD tM "" ++ " " ++ toString tY ++ ". " ++ e)

/-! ## C3 — `createBooking`: time-ordered insert positioning

`createBooking` reads `A6:I1000` via the authenticated values API (so array
index `i` is sheet row `6 + i`), collects the rows whose column A equals the
target day-of-month string, sorts them by parsed start time (rows with no
parseable time last; `Array.prototype.sort` is stable, modelled by a stable
insertion sort), and scans for the first row whose start time is `≥` the
candidate's. If the date has no rows it re-reads `A6:A1000` (modelled as
`colA`) and inserts after the last row with a non-empty date cell, or at row
6 if there is none. -/

/-- The helper `parseTimeToMinutes` from `createBooking`: trim, split on ":", require
exactly two parts, `parseInt` each; minutes since midnight. -/
def parseTimeToMinutes (s : String) : Option Int :=
  let t := jsTrim s
  match jsSplitColon t with
  | [hs, ms] =>
    match jsParseInt hs, jsParseInt ms with
    | some hv, some mv => some (hv * 60 + mv)
    | _, _ => none
  | _ => none

/-- The helper `getRowStartTime`: the morning start (column F) if non-empty and
parseable, else the afternoon start (column H) if non-empty, else `none`. -/
def getRowStartTime (row : List String) : Option Int :=
  let mStart := jsTrim (row.getD 5 "")
  let afternoon :=
    let aStart := jsTrim (row.getD 7 "")
    if aStart != "" then parseTimeToMinutes aStart else none
  if mStart != "" then
    match parseTimeToMinutes mStart with
    | some t => some t
    | none => afternoon
  else afternoon

/-- A same-date row as collected by `createBooking`: its 1-based sheet row
number and parsed start time. -/
structure DatedRow where
  rowNumber : Nat
  startTime : Option Int
deriving DecidableEq

/-- The rows of the `A6:I1000` read whose trimmed column A equals the target
date string, with their sheet row numbers `6 + i`. -/
def collectSameDate (rows : List (List String)) (targetDate : String) :
    List DatedRow :=
  rows.enum.filterMap (fun p =>
    if jsTrim (p.2.getD 0 "") == targetDate then
      some ⟨6 + p.1, getRowStartTime p.2⟩
    else none)

/-- The sort comparator (`a` may precede `b`): rows with no parseable time
sort last, otherwise ascending by start time. -/
def rowLeB (a b : DatedRow) : Bool :=
  match a.startTime, b.startTime with
  | _, none => true
  | none, some _ => false
  | some ta, some tb => decide (ta ≤ tb)

def rowLe (a b : DatedRow) : Prop := rowLeB a b = true

instance : DecidableRel rowLe :=
  fun a b => inferInstanceAs (Decidable (rowLeB a b = true))

/-- The scan predicate: the row has a start time and it is `≥` the
candidate's start time. -/
def qualB (newStart : Int) (r : DatedRow) : Bool :=
  match r.startTime with
  | some t => decide (newStart ≤ t)
  | none => false

/-- The downward scan of the `A6:A1000` fallback read for the last row with
a non-empty (trimmed) date cell; `n` is the number of rows still to scan. -/
def lastDataRowGo (colA : List String) : Nat → Option Nat
  | 0 => none
  | i + 1 =>
    if jsTrim (colA.getD i "") ≠ "" then some i else lastDataRowGo colA i

/-- 0-based index of the last row with data in the fallback read. -/
def lastDataRow (colA : List String) : Option Nat :=
  lastDataRowGo colA colA.length

/-- The 1-based row index at which `createBooking` inserts the new row. -/
def computeInsertRowIndex (rows : List (List String)) (colA : List String)
    (targetDate : String) (newStart : Int) : Nat :=
  let sd := (collectSameDate rows targetDate).insertionSort rowLe
  if sd.isEmpty then
    match lastDataRow colA with
    | some i => 6 + i + 1
    | none => 6
  else
    let pos := sd.findIdx (qualB newStart)
    if pos == 0 then (sd.headD ⟨0, none⟩).rowNumber
    else (sd.getD (pos - 1) ⟨0, none⟩).rowNumber + 1

/-! ## C7 — `deleteFixedSchedule`: shift-up compaction

The function reads `C1:I20` (so row `r`, 1-based, is `values[r-1]`, each row
being its columns C..I), scans forward for the last valid fixed-schedule row
before the booking-table header, and then issues `updateCells` requests:
when the deleted row lies strictly above the last fixed-schedule row, every
row below it is copied one row up and the previously-last row is cleared;
otherwise the deleted row itself is cleared. Requests are modelled as
`(1-based target row, the seven written cell values)`. -/

/-- Header-row test of the region scan: column C is "BOOKING STAFF", or
column D contains both "MEETING ROOM" and "NHA TRANG" (after trim and
upper-casing). -/
def isFsHeaderRow (row : List String) : Bool :=
  let staff := jsToUpper (jsTrim (row.getD 0 ""))
  let room := jsToUpper (jsTrim (row.getD 1 ""))
  staff == "BOOKING STAFF"
    || (jsIncludes room "MEETING ROOM" && jsIncludes room "NHA TRANG")

/-- Valid fixed-schedule row test of the region scan: staff and room
non-empty, some time cell non-empty, and not header-like. -/
def isValidFsRow (row : List String) : Bool :=
  let staff := jsToUpper (jsTrim (row.getD 0 ""))
  let room := jsToUpper (jsTrim (row.getD 1 ""))
  let hasTime := jsTrim (row.getD 3 "") != "" || jsTrim (row.getD 4 "") != ""
    || jsTrim (row.getD 5 "") != "" || jsTrim (row.getD 6 "") != ""
  staff != "" && room != "" && hasTime
    && !(jsIncludes room "MEETING ROOM") && staff != "BOOKING STAFF"

/-- The forward scan for the last fixed-schedule row: stop at the header row,
record `i + 1` (1-based) for every valid row seen. `acc` starts at the row
being deleted. -/
def scanLastFsRow : List (List String) → Nat → Nat → Nat
  | [], _, acc => acc
  | row :: rest, i, acc =>
    if isFsHeaderRow row then acc
    else scanLastFsRow rest (i + 1) (if isValidFsRow row then i + 1 else acc)

/-- The value `lastFixedScheduleRow` as computed by `deleteFixedSchedule`. -/
def lastFixedScheduleRow (values : List (List String)) (rowNum : Nat) : Nat :=
  scanLastFsRow values 0 rowNum

/-- The seven written values of an `updateCells` request built from a source
row: `sourceRowData[i] || ""` for columns C..I. -/
def pad7 (row : List String) : List String :=
  [row.getD 0 "", row.getD 1 "", row.getD 2 "", row.getD 3 "",
   row.getD 4 "", row.getD 5 "", row.getD 6 ""]

def blank7 : List String := ["", "", "", "", "", "", ""]

/-- The shift loop: for `sourceRow = rowNum+1 .. L` (counted by the fuel
argument), write row `sourceRow`'s data (`values[sourceRow-1]`, padded) to
row `sourceRow - 1`. -/
def shiftReqsAux (values : List (List String)) (sourceRow : Nat) :
    Nat → List (Nat × List String)
  | 0 => []
  | k + 1 =>
    (sourceRow - 1, pad7 (values.getD (sourceRow - 1) []))
      :: shiftReqsAux values (sourceRow + 1) k

/-- The batched `updateCells` requests issued by `deleteFixedSchedule`. -/
def deleteFixedScheduleRequests (values : List (List String)) (rowNum : Nat) :
    List (Nat × List String) :=
  let L := lastFixedScheduleRow values rowNum
  if rowNum < L && !values.isEmpty then
    shiftReqsAux values (rowNum + 1) (L - rowNum) ++ [(L, blank7)]
  else
    [(rowNum, blank7)]

/-- Sheet state: 1-based row number to its columns C..I. -/
def sheetOf (values : List (List String)) : Nat → List String :=
  fun r => values.getD (r - 1) []

/-- Apply `updateCells` requests in order. -/
def applyReqs (sheet : Nat → List String) (reqs : List (Nat × List String)) :
    Nat → List String :=
  reqs.foldl (fun s p => fun n => if n = p.1 then p.2 else s n) sheet

/-! ## Theorems -/

theorem leadsWith_append (n a b : List Char) (h : leadsWith n a = true) :
    leadsWith n (a ++ b) = true := by
  induction n generalizing a with
  | nil => simp [leadsWith]
  | cons c cs ih =>
    cases a with
    | nil => simp [leadsWith] at h
    | cons d ds =>
      simp only [leadsWith, Bool.and_eq_true] at h ⊢
      exact ⟨h.1, ih ds h.2⟩

theorem leadsWith_refl_append (a b : List Char) : leadsWith a (a ++ b) = true := by
  induction a with
  | nil => simp [leadsWith]
  | cons c cs ih => simp [leadsWith, ih]

theorem occursIn_of_leadsWith (n h : List Char) (hp : leadsWith n h = true) :
    occursIn n h = true := by
  cases h with
  | nil => cases n with
    | nil => simp [occursIn]
    | cons c cs => simp [leadsWith] at hp
  | cons d ds => simp [occursIn, hp]

theorem occursIn_append_right (n pre rest : List Char) (h : occursIn n rest = true) :
    occursIn n (pre ++ rest) = true := by
  induction pre with
  | nil => simpa using h
  | cons c cs ih => simp [occursIn, ih]

/-- A list occurs in any extension of itself on both sides. -/
theorem occursIn_append_middle (n pre post : List Char) :
    occursIn n (pre ++ (n ++ post)) = true :=
  occursIn_append_right n pre (n ++ post)
    (occursIn_of_leadsWith n (n ++ post) (leadsWith_refl_append n post))

theorem daysFromCivil_eq_base_add (y m1 d : Nat) (hd : 1 ≤ d) :
    daysFromCivil y m1 d = daysFromCivil y m1 1 + (d - 1) := by
  dsimp only [daysFromCivil]
  omega

theorem daysFromCivil_day_le_iff (y m1 : Nat) {d1 d2 : Nat}
    (h1 : 1 ≤ d1) (h2 : 1 ≤ d2) :
    daysFromCivil y m1 d1 ≤ daysFromCivil y m1 d2 ↔ d1 ≤ d2 := by
  rw [daysFromCivil_eq_base_add y m1 d1 h1, daysFromCivil_eq_base_add y m1 d2 h2]
  omega

/-- C1. For every candidate one-off booking with interval `[s,e)` where
`s < e`, the pre-create conflict check of `BookingModal.handleSubmit` (in
create mode) rejects the request if and only if some existing booking
`[s2,e2)` for the same room and the same calendar date satisfies
`s < e2 AND s2 < e`; moreover any booking it reports (whose start and end
times the error message then displays) is itself such a conflicting
booking. -/
theorem checkBookingConflict_iff (targetRoomId : String) (selY selM selD : Nat)
    (s e : Nat) (bookings : List Booking) (hse : s < e) :
    ((conflictingBooking targetRoomId selY selM selD false "" s e bookings).isSome ↔
      ∃ b ∈ bookings, b.room_id = targetRoomId ∧ b.start_time.year = selY ∧
        b.start_time.month = selM ∧ b.start_time.day = selD ∧
        s < b.end_time.getTime ∧ b.start_time.getTime < e)
    ∧ (∀ b, conflictingBooking targetRoomId selY selM selD false "" s e bookings
          = some b →
        b ∈ bookings ∧ b.room_id = targetRoomId ∧ b.start_time.year = selY ∧
        b.start_time.month = selM ∧ b.start_time.day = selD ∧
        s < b.end_time.getTime ∧ b.start_time.getTime < e) := by
  have hpred : ∀ b : Booking,
      bmConflictPred targetRoomId selY selM selD false "" s e b = true ↔
        (b.room_id = targetRoomId ∧ b.start_time.year = selY ∧
         b.start_time.month = selM ∧ b.start_time.day = selD ∧
         s < b.end_time.getTime ∧ b.start_time.getTime < e) := by
    intro b
    simp only [bmConflictPred, Bool.false_and, Bool.if_false_left,
      Bool.if_true_right]
    by_cases h1 : b.room_id = targetRoomId <;>
      by_cases h2 : b.start_time.year = selY <;>
      by_cases h3 : b.start_time.month = selM <;>
      by_cases h4 : b.start_time.day = selD <;>
      simp [h1, h2, h3, h4, bne_iff_ne, Bool.and_eq_true, decide_eq_true_eq,
        and_assoc]
  constructor
  · rw [conflictingBooking, List.find?_isSome]
    constructor
    · rintro ⟨b, hb, hp⟩
      exact ⟨b, hb, (hpred b).mp hp⟩
    · rintro ⟨b, hb, hp⟩
      exact ⟨b, hb, (hpred b).mpr hp⟩
  · intro b hb
    have hmem := List.mem_of_find?_eq_some hb
    have hp := List.find?_some hb
    exact ⟨hmem, (hpred b).mp hp⟩

/-- C1 witness: the spec's scenario — room "da-lat", existing booking
10:00–10:30 on the 5th, candidate 10:15–10:45 the same day — instantiates
the theorem. -/
theorem checkBookingConflict_iff_witness :
    ((conflictingBooking "da-lat" 2025 10 5 false ""
        (JsDate.getTime ⟨2025, 10, 5, 615⟩) (JsDate.getTime ⟨2025, 10, 5, 645⟩)
        [⟨"b1", "da-lat", ⟨2025, 10, 5, 600⟩, ⟨2025, 10, 5, 630⟩⟩]).isSome ↔
      ∃ b ∈ [(⟨"b1", "da-lat", ⟨2025, 10, 5, 600⟩, ⟨2025, 10, 5, 630⟩⟩ : Booking)],
        b.room_id = "da-lat" ∧ b.start_time.year = 2025 ∧
        b.start_time.month = 10 ∧ b.start_time.day = 5 ∧
        JsDate.getTime ⟨2025, 10, 5, 615⟩ < b.end_time.getTime ∧
        b.start_time.getTime < JsDate.getTime ⟨2025, 10, 5, 645⟩)
    ∧ (∀ b, conflictingBooking "da-lat" 2025 10 5 false ""
          (JsDate.getTime ⟨2025, 10, 5, 615⟩) (JsDate.getTime ⟨2025, 10, 5, 645⟩)
          [⟨"b1", "da-lat", ⟨2025, 10, 5, 600⟩, ⟨2025, 10, 5, 630⟩⟩] = some b →
        b ∈ [(⟨"b1", "da-lat", ⟨2025, 10, 5, 600⟩, ⟨2025, 10, 5, 630⟩⟩ : Booking)] ∧
        b.room_id = "da-lat" ∧ b.start_time.year = 2025 ∧
        b.start_time.month = 10 ∧ b.start_time.day = 5 ∧
        JsDate.getTime ⟨2025, 10, 5, 615⟩ < b.end_time.getTime ∧
        b.start_time.getTime < JsDate.getTime ⟨2025, 10, 5, 645⟩) :=
  checkBookingConflict_iff "da-lat" 2025 10 5
    (JsDate.getTime ⟨2025, 10, 5, 615⟩) (JsDate.getTime ⟨2025, 10, 5, 645⟩)
    [⟨"b1", "da-lat", ⟨2025, 10, 5, 600⟩, ⟨2025, 10, 5, 630⟩⟩] (by decide)

/-- C2. `createFixedSchedule(B)`'s schedule-vs-schedule check fails with a
conflict error if and only if some existing fixed schedule `A` on the same
room has a time-of-day range overlapping `B`'s (`B.start < A.end` and
`B.end > A.start`), with no date dimension involved; and the error message is
exactly the conflict message naming such an `A`'s staff name and time
range. -/
theorem createFixedSchedule_conflict_iff (cand : FixedSchedule)
    (existing : List FixedSchedule) :
    ((∃ msg, checkFixedScheduleConflicts cand existing = .error msg) ↔
      ∃ A ∈ existing, A.room_id = cand.room_id ∧
        cand.startMinutes < A.endMinutes ∧ cand.endMinutes > A.startMinutes)
    ∧ (∀ msg, checkFixedScheduleConflicts cand existing = .error msg →
        ∃ A ∈ existing, A.room_id = cand.room_id ∧
          cand.startMinutes < A.endMinutes ∧ cand.endMinutes > A.startMinutes ∧
          msg = fsConflictMsg A) := by
  have hpred : ∀ A : FixedSchedule, fsOverlapPred cand A = true ↔
      (A.room_id = cand.room_id ∧ cand.startMinutes < A.endMinutes ∧
        cand.endMinutes > A.startMinutes) := by
    intro A
    simp [fsOverlapPred, Bool.and_eq_true, decide_eq_true_eq, and_assoc]
  constructor
  · constructor
    · rintro ⟨msg, hmsg⟩
      unfold checkFixedScheduleConflicts at hmsg
      cases hfind : existing.find? (fsOverlapPred cand) with
      | none => rw [hfind] at hmsg; exact absurd hmsg (by simp)
      | some A =>
        exact ⟨A, List.mem_of_find?_eq_some hfind,
          (hpred A).mp (List.find?_some hfind)⟩
    · rintro ⟨A, hmem, hq⟩
      unfold checkFixedScheduleConflicts
      cases hfind : existing.find? (fsOverlapPred cand) with
      | none =>
        rw [List.find?_eq_none] at hfind
        exact absurd ((hpred A).mpr hq) (by simpa using hfind A hmem)
      | some ex => exact ⟨fsConflictMsg ex, rfl⟩
  · intro msg hmsg
    unfold checkFixedScheduleConflicts at hmsg
    cases hfind : existing.find? (fsOverlapPred cand) with
    | none => rw [hfind] at hmsg; exact absurd hmsg (by simp)
    | some A =>
      rw [hfind] at hmsg
      obtain ⟨h1, h2, h3⟩ := (hpred A).mp (List.find?_some hfind)
      exact ⟨A, List.mem_of_find?_eq_some hfind, h1, h2, h3, by
        simpa using hmsg.symm⟩

/-- C5. `createBooking` rejects a request before any sheet mutation, with an
error citing the schedule's staff name and start/end times, if and only if
some fixed schedule for the same room whose `dayOfWeek` equals the booking
date's day of week overlaps the booking's time range projected onto that
date; schedules for other days of the week never cause a rejection. -/
theorem createBooking_fixedSchedule_check (b : BookingReq)
    (schedules : List FixedSchedule) (writes : List String) :
    ((∃ msg, createBookingModel b schedules writes = .error msg) ↔
      ∃ sch ∈ schedules,
        sch.dayOfWeek = jsGetDay b.start_time.year (b.start_time.month + 1)
          b.start_time.day ∧
        sch.room_id = b.room_id ∧
        b.start_time.getTime <
          (JsDate.mk b.start_time.year b.start_time.month b.start_time.day
            sch.endMinutes).getTime ∧
        (JsDate.mk b.start_time.year b.start_time.month b.start_time.day
            sch.startMinutes).getTime < b.end_time.getTime)
    ∧ (∀ msg, createBookingModel b schedules writes = .error msg →
        ∃ sch ∈ schedules, msg = bookingFixedConflictMsg sch ∧
          sch.dayOfWeek = jsGetDay b.start_time.year (b.start_time.month + 1)
            b.start_time.day ∧ sch.room_id = b.room_id)
    ∧ ((∀ sch ∈ schedules, bookingFixedPred b sch = false) →
        createBookingModel b schedules writes = .ok writes) := by
  have hpred : ∀ sch : FixedSchedule, bookingFixedPred b sch = true ↔
      (sch.dayOfWeek = jsGetDay b.start_time.year (b.start_time.month + 1)
          b.start_time.day ∧
        sch.room_id = b.room_id ∧
        b.start_time.getTime <
          (JsDate.mk b.start_time.year b.start_time.month b.start_time.day
            sch.endMinutes).getTime ∧
        (JsDate.mk b.start_time.year b.start_time.month b.start_time.day
            sch.startMinutes).getTime < b.end_time.getTime) := by
    intro sch
    simp [bookingFixedPred, Bool.and_eq_true, decide_eq_true_eq, and_assoc]
  refine ⟨?_, ?_, ?_⟩
  · constructor
    · rintro ⟨msg, hmsg⟩
      unfold createBookingModel checkBookingFixedConflict at hmsg
      cases hfind : schedules.find? (bookingFixedPred b) with
      | none => rw [hfind] at hmsg; exact absurd hmsg (by simp)
      | some sch =>
        exact ⟨sch, List.mem_of_find?_eq_some hfind,
          (hpred sch).mp (List.find?_some hfind)⟩
    · rintro ⟨sch, hmem, hq⟩
      unfold createBookingModel checkBookingFixedConflict
      cases hfind : schedules.find? (bookingFixedPred b) with
      | none =>
        rw [List.find?_eq_none] at hfind
        exact absurd ((hpred sch).mpr hq) (by simpa using hfind sch hmem)
      | some ex => exact ⟨bookingFixedConflictMsg ex, rfl⟩
  · intro msg hmsg
    unfold createBookingModel checkBookingFixedConflict at hmsg
    cases hfind : schedules.find? (bookingFixedPred b) with
    | none => rw [hfind] at hmsg; exact absurd hmsg (by simp)
    | some sch =>
      rw [hfind] at hmsg
      obtain ⟨h1, h2, _⟩ := (hpred sch).mp (List.find?_some hfind)
      exact ⟨sch, List.mem_of_find?_eq_some hfind, by simpa using hmsg.symm,
        h1, h2⟩
  · intro hall
    unfold createBookingModel checkBookingFixedConflict
    rw [List.find?_eq_none.mpr (fun sch hmem => by simp [hall sch hmem])]

/-- C5 witness: the spec's scenario — fixed schedule "Team A" on
"nha-trang" 09:00–09:30 (for Wednesdays), booking request on Wednesday
2025-10-15 09:15–09:45 — instantiated through the theorem. Day-of-week
hypotheses do not occur, so this simply re-applies the theorem at a concrete
input; the conflict itself is then decided. -/
theorem createBooking_fixedSchedule_check_witness :
    (∃ msg, createBookingModel
        ⟨"nha-trang", ⟨2025, 9, 15, 555⟩, ⟨2025, 9, 15, 585⟩⟩
        [⟨"fixed-1-0-3-nha-trang", "nha-trang", "Team A", 3, 9, 0, 9, 30⟩]
        ["insert"] = .error msg) := by
  have h := (createBooking_fixedSchedule_check
    ⟨"nha-trang", ⟨2025, 9, 15, 555⟩, ⟨2025, 9, 15, 585⟩⟩
    [⟨"fixed-1-0-3-nha-trang", "nha-trang", "Team A", 3, 9, 0, 9, 30⟩]
    ["insert"]).1
  exact h.mpr (by
    refine ⟨⟨"fixed-1-0-3-nha-trang", "nha-trang", "Team A", 3, 9, 0, 9, 30⟩,
      by decide, by decide, rfl, by decide, by decide⟩)

theorem fsConflictMsg_has_marker (A : FixedSchedule) :
    jsIncludes (fsConflictMsg A) "Cannot create fixed schedule" = true := by
  have h : leadsWith "Cannot create fixed schedule".data
      ("Cannot create fixed schedule: conflicts with existing fixed schedule (".data
        ++ (A.staff_name ++ ") from " ++ A.startStr ++ " to " ++ A.endStr).data)
        = true :=
    leadsWith_append _ _ _ (by decide)
  have hdata : (fsConflictMsg A).data =
      "Cannot create fixed schedule: conflicts with existing fixed schedule (".data
        ++ (A.staff_name ++ ") from " ++ A.startStr ++ " to " ++ A.endStr).data := by
    simp [fsConflictMsg, String.data_append, List.append_assoc]
  rw [jsIncludes, hdata]
  exact occursIn_of_leadsWith _ _ h

theorem bookingFixedConflictMsg_has_marker (sch : FixedSchedule) :
    jsIncludes (bookingFixedConflictMsg sch) "Cannot create booking" = true := by
  have h : leadsWith "Cannot create booking".data
      ("Cannot create booking: conflicts with fixed schedule (".data
        ++ ((if sch.staff_name = "" then "Fixed Schedule" else sch.staff_name)
            ++ ") from " ++ sch.startStr ++ " to " ++ sch.endStr).data) = true :=
    leadsWith_append _ _ _ (by decide)
  have hdata : (bookingFixedConflictMsg sch).data =
      "Cannot create booking: conflicts with fixed schedule (".data
        ++ ((if sch.staff_name = "" then "Fixed Schedule" else sch.staff_name)
            ++ ") from " ++ sch.startStr ++ " to " ++ sch.endStr).data := by
    simp [bookingFixedConflictMsg, String.data_append, List.append_assoc]
  rw [jsIncludes, hdata]
  exact occursIn_of_leadsWith _ _ h

/-- C10. If a pre-write conflict check inside `createBooking` or
`createFixedSchedule` itself fails with any error whose message lacks the
operation's conflict marker (for example a fetch failure), the catch wrapper
swallows the failure and the operation proceeds to write; the conflict errors
raised by the checks themselves always carry their marker and abort the
write. -/
theorem conflictCheck_failure_proceeds :
    (∀ e, jsIncludes e "Cannot create booking" = false →
      conflictCatchGuard "Cannot create booking" (.error e) = .ok ())
    ∧ (∀ e, jsIncludes e "Cannot create fixed schedule" = false →
      conflictCatchGuard "Cannot create fixed schedule" (.error e) = .ok ())
    ∧ (∀ sch : FixedSchedule,
      conflictCatchGuard "Cannot create booking"
        (.error (bookingFixedConflictMsg sch)) =
          .error (bookingFixedConflictMsg sch))
    ∧ (∀ A : FixedSchedule,
      conflictCatchGuard "Cannot create fixed schedule"
        (.error (fsConflictMsg A)) = .error (fsConflictMsg A)) := by
  refine ⟨?_, ?_, ?_, ?_⟩
  · intro e he; simp [conflictCatchGuard, he]
  · intro e he; simp [conflictCatchGuard, he]
  · intro sch; simp [conflictCatchGuard, bookingFixedConflictMsg_has_marker]
  · intro A; simp [conflictCatchGuard, fsConflictMsg_has_marker]

/-- C10 witness: a concrete network failure ("Failed to fetch") is swallowed
at both wrappers, and a concrete conflict error aborts. -/
theorem conflictCheck_failure_proceeds_witness :
    conflictCatchGuard "Cannot create booking" (.error "Failed to fetch")
        = .ok ()
    ∧ conflictCatchGuard "Cannot create fixed schedule"
        (.error "Failed to fetch") = .ok ()
    ∧ conflictCatchGuard "Cannot create booking"
        (.error (bookingFixedConflictMsg
          ⟨"fixed-1-0-3-nha-trang", "nha-trang", "Team A", 3, 9, 0, 9, 30⟩)) =
        .error (bookingFixedConflictMsg
          ⟨"fixed-1-0-3-nha-trang", "nha-trang", "Team A", 3, 9, 0, 9, 30⟩) :=
  ⟨conflictCheck_failure_proceeds.1 "Failed to fetch" (by decide),
   conflictCheck_failure_proceeds.2.1 "Failed to fetch" (by decide),
   conflictCheck_failure_proceeds.2.2.1
     ⟨"fixed-1-0-3-nha-trang", "nha-trang", "Team A", 3, 9, 0, 9, 30⟩⟩

/-- C4. When the original booking row is located, `updateBooking` issues the
create of the new row strictly before the delete of the old one; the deletion
index is the old row's index plus exactly one when the new row was inserted
on the same tab at or above the old row's original index (and unchanged
otherwise); and the create result is returned whether or not the delete
succeeds. -/
theorem updateBooking_create_then_delete (t : LocatedTarget)
    (cr : CreateResult) (deleteSucceeds : Bool) :
    updateBookingModel (some t) (.ok cr) deleteSucceeds =
      .ok (cr, [SheetEvent.createRow cr.rowNumber cr.gid,
        SheetEvent.deleteRow
          (t.realRowIndex +
            (if cr.gid = t.gid ∧ cr.rowNumber - 1 ≤ t.realRowIndex then 1 else 0))
          t.gid])
    ∧ updateBookingModel (some t) (.ok cr) true =
        updateBookingModel (some t) (.ok cr) false := by
  constructor
  · unfold updateBookingModel updateDeleteIndex
    by_cases h1 : cr.gid = t.gid <;> by_cases h2 : cr.rowNumber - 1 ≤ t.realRowIndex <;>
      simp [h1, h2]
  · rfl

/-- C8 counterexample: a concrete network failure during the fetch phase of
`fetchBookings` (and of `fetchFixedSchedules`) is not surfaced as an error —
the call returns an empty list exactly as a successful fetch of an empty
sheet would, refuting the claim that such failures are never silently
swallowed at the Facade boundary. -/
theorem fetch_failure_swallowed_counterexample :
    fetchBookingsModel (.error "Failed to fetch") (fun _ => .ok []) = .ok []
    ∧ fetchFixedSchedulesModel (.error "Failed to fetch") (fun _ => .ok [])
        = .ok []
    ∧ fetchBookingsModel (.error "Failed to fetch") (fun _ => .ok [])
        = fetchBookingsModel (.ok "") (fun _ => .ok []) := by
  exact ⟨rfl, rfl, rfl⟩

/-- C8 (amended). Every fetch-phase network failure in `fetchBookings` and
`fetchFixedSchedules` is caught at the Facade boundary and an empty list is
returned as if the fetch had succeeded; only a CSV-parse rejection
propagates unchanged. -/
theorem fetch_failure_swallowed (e : String)
    (pb : String → Except String (List SynthBooking))
    (pf : String → Except String (List FixedSchedule)) (csv : String) :
    fetchBookingsModel (.error e) pb = .ok []
    ∧ fetchFixedSchedulesModel (.error e) pf = .ok []
    ∧ fetchBookingsModel (.ok csv) pb = pb csv
    ∧ fetchFixedSchedulesModel (.ok csv) pf = pf csv :=
  ⟨rfl, rfl, rfl, rfl⟩

/-- C6. `convertFixedSchedulesToBookings` produces synthetic bookings only
when the requested year and month equal the real current year and month
(returning `[]` for any other month), and within the current month exactly
for the calendar dates on or after today whose day of week matches the
schedule's; each produced booking carries the schedule's room, staff name
and time-of-day placed on that date. -/
theorem convertFixedSchedules_current_month_only
    (fixedSchedules : List FixedSchedule) (year monthIndex : Nat)
    (today : Today) (htoday : 1 ≤ today.day) :
    ((year ≠ today.year ∨ monthIndex ≠ today.month) →
      convertFixedSchedulesToBookings fixedSchedules year monthIndex today = [])
    ∧ (∀ b ∈ convertFixedSchedulesToBookings fixedSchedules year monthIndex today,
        year = today.year ∧ monthIndex = today.month ∧
        ∃ s ∈ fixedSchedules, ∃ day, 1 ≤ day ∧ day ≤ daysInMonth year monthIndex ∧
          s.dayOfWeek = jsGetDay year (monthIndex + 1) day ∧
          today.day ≤ day ∧
          b = fixedToBooking s year monthIndex day)
    ∧ (year = today.year → monthIndex = today.month →
        ∀ s ∈ fixedSchedules, ∀ day, 1 ≤ day → day ≤ daysInMonth year monthIndex →
          s.dayOfWeek = jsGetDay year (monthIndex + 1) day → today.day ≤ day →
          fixedToBooking s year monthIndex day ∈
            convertFixedSchedulesToBookings fixedSchedules year monthIndex today) := by
  refine ⟨?_, ?_, ?_⟩
  · intro h
    unfold convertFixedSchedulesToBookings
    have : (year != today.year || monthIndex != today.month) = true := by
      rcases h with h | h <;> simp [h]
    rw [if_pos this]
  · intro b hb
    unfold convertFixedSchedulesToBookings at hb
    by_cases hguard : (year != today.year || monthIndex != today.month) = true
    · rw [if_pos hguard] at hb; cases hb
    · rw [if_neg hguard] at hb
      have hym : year = today.year ∧ monthIndex = today.month := by
        simpa [not_or] using hguard
      refine ⟨hym.1, hym.2, ?_⟩
      rw [List.mem_flatMap] at hb
      obtain ⟨s, hs, hmem⟩ := hb
      rw [List.mem_filterMap] at hmem
      obtain ⟨d0, hd0, heq⟩ := hmem
      rw [List.mem_range] at hd0
      by_cases hdow : (s.dayOfWeek == jsGetDay year (monthIndex + 1) (d0 + 1)) = true
      · rw [if_pos hdow] at heq
        by_cases hge : daysFromCivil today.year (today.month + 1) today.day ≤
            daysFromCivil year (monthIndex + 1) (d0 + 1)
        · rw [if_pos hge] at heq
          refine ⟨s, hs, d0 + 1, by omega, by omega,
            by simpa using hdow, ?_, by simpa using heq.symm⟩
          rw [hym.1] at hge
          rw [hym.2] at hge
          exact (daysFromCivil_day_le_iff today.year (today.month + 1)
            htoday (by omega)).mp hge
        · rw [if_neg hge] at heq; cases heq
      · rw [if_neg hdow] at heq; cases heq
  · intro hy hm s hs day hday1 hday2 hdow hge
    unfold convertFixedSchedulesToBookings
    have hguard : (year != today.year || monthIndex != today.month) = false := by
      simp [hy, hm]
    rw [if_neg (by simp [hguard])]
    rw [List.mem_flatMap]
    refine ⟨s, hs, ?_⟩
    rw [List.mem_filterMap]
    refine ⟨day - 1, by rw [List.mem_range]; omega, ?_⟩
    have hday : day - 1 + 1 = day := by omega
    rw [hday, if_pos (by simpa using hdow), if_pos ?_]
    rw [hy, hm]
    exact (daysFromCivil_day_le_iff today.year (today.month + 1)
      htoday hday1).mpr hge

/-- C6 witness: today is 2025-10-15; a Friday 14:00–15:00 schedule for
"da-lat" viewed for October 2025 (monthIndex 9), instantiating the theorem;
its dated conclusions are then checked on concrete dates. -/
theorem convertFixedSchedules_current_month_only_witness :
    ((2025 ≠ (2025 : Nat) ∨ 9 ≠ (9 : Nat)) →
      convertFixedSchedulesToBookings
        [⟨"fixed-2-0-5-da-lat", "da-lat", "Team B", 5, 14, 0, 15, 0⟩]
        2025 9 ⟨2025, 9, 15⟩ = [])
    ∧ (∀ b ∈ convertFixedSchedulesToBookings
          [⟨"fixed-2-0-5-da-lat", "da-lat", "Team B", 5, 14, 0, 15, 0⟩]
          2025 9 ⟨2025, 9, 15⟩,
        (2025 : Nat) = 2025 ∧ (9 : Nat) = 9 ∧
        ∃ s ∈ [(⟨"fixed-2-0-5-da-lat", "da-lat", "Team B", 5, 14, 0, 15, 0⟩ :
            FixedSchedule)],
          ∃ day, 1 ≤ day ∧ day ≤ daysInMonth 2025 9 ∧
            s.dayOfWeek = jsGetDay 2025 10 day ∧ 15 ≤ day ∧
            b = fixedToBooking s 2025 9 day)
    ∧ ((2025 : Nat) = 2025 → (9 : Nat) = 9 →
        ∀ s ∈ [(⟨"fixed-2-0-5-da-lat", "da-lat", "Team B", 5, 14, 0, 15, 0⟩ :
            FixedSchedule)],
          ∀ day, 1 ≤ day → day ≤ daysInMonth 2025 9 →
            s.dayOfWeek = jsGetDay 2025 10 day → 15 ≤ day →
            fixedToBooking s 2025 9 day ∈
              convertFixedSchedulesToBookings
                [⟨"fixed-2-0-5-da-lat", "da-lat", "Team B", 5, 14, 0, 15, 0⟩]
                2025 9 ⟨2025, 9, 15⟩) :=
  convertFixedSchedules_current_month_only
    [⟨"fixed-2-0-5-da-lat", "da-lat", "Team B", 5, 14, 0, 15, 0⟩]
    2025 9 ⟨2025, 9, 15⟩ (by decide)

theorem futureMonthMsg_occurrences (readable monthName yearStr : String) :
    jsIncludes (futureMonthMsg readable monthName yearStr)
        (monthName ++ " " ++ yearStr) = true
    ∧ jsIncludes (futureMonthMsg readable monthName yearStr)
        (readable ++ " " ++ yearStr) = true
    ∧ jsIncludes (futureMonthMsg readable monthName yearStr)
        "Unable to book for" = true := by
  refine ⟨?_, ?_, ?_⟩
  · rw [jsIncludes]
    have hdata : (futureMonthMsg readable monthName yearStr).data =
        ("Unable to book for " ++ readable ++ " " ++ yearStr
          ++ ". The sheet for this month doesn't exist yet. Please create a sheet named \"").data
        ++ ((monthName ++ " " ++ yearStr).data
          ++ ("\" or \"" ++ readable ++ " " ++ yearStr
            ++ "\" in your Google Spreadsheet before booking.").data) := by
      simp [futureMonthMsg, String.data_append, List.append_assoc]
    rw [hdata]
    exact occursIn_append_middle _ _ _
  · rw [jsIncludes]
    have hdata : (futureMonthMsg readable monthName yearStr).data =
        "Unable to book for ".data
        ++ ((readable ++ " " ++ yearStr).data
          ++ (". The sheet for this month doesn't exist yet. Please create a sheet named \""
            ++ monthName ++ " " ++ yearStr ++ "\" or \"" ++ readable ++ " "
            ++ yearStr ++ "\" in your Google Spreadsheet before booking.").data) := by
      simp [futureMonthMsg, String.data_append, List.append_assoc]
    rw [hdata]
    exact occursIn_append_middle _ _ _
  · rw [jsIncludes]
    have hdata : (futureMonthMsg readable monthName yearStr).data =
        "Unable to book for".data
        ++ (" " ++ readable ++ " " ++ yearStr
          ++ ". The sheet for this month doesn't exist yet. Please create a sheet named \""
          ++ monthName ++ " " ++ yearStr ++ "\" or \"" ++ readable ++ " "
          ++ yearStr ++ "\" in your Google Spreadsheet before booking.").data := by
      simp [futureMonthMsg, String.data_append, List.append_assoc]
    rw [hdata]
    exact occursIn_of_leadsWith _ _ (leadsWith_refl_append _ _)

/-- C9. For a requested month strictly in the future whose tab is found
neither by CSV probing nor by the metadata query (no tab title contains the
target month name), sheet resolution fails — through the enclosing catch,
which re-throws this message unchanged — with an error containing the
title-case month name with the numeric year and the upper-case suggested tab
name with the year (hence both suggested tab-name strings, the month name
and the year). -/
theorem getMonthSheetGID_future_no_tab (tY tM todayY todayM : Nat)
    (api : Option (List SheetProps))
    (hfuture : todayY < tY ∨ (tY = todayY ∧ todayM < tM))
    (hapi : ∀ s ∈ api.getD [],
      jsIncludes (jsToUpper s.title) (monthNamesUpper.getD tM "") = false) :
    getMonthSheetGIDWrapped tY tM todayY todayM none api =
      .error (futureMonthMsg (monthNamesReadable.getD tM "")
        (monthNamesUpper.getD tM "") (toString tY))
    ∧ jsIncludes (futureMonthMsg (monthNamesReadable.getD tM "")
        (monthNamesUpper.getD tM "") (toString tY))
        (monthNamesUpper.getD tM "" ++ " " ++ toString tY) = true
    ∧ jsIncludes (futureMonthMsg (monthNamesReadable.getD tM "")
        (monthNamesUpper.getD tM "") (toString tY))
        (monthNamesReadable.getD tM "" ++ " " ++ toString tY) = true := by
  have hfut : (decide (todayY < tY) || (tY == todayY && decide (todayM < tM)))
      = true := by
    rcases hfuture with h | ⟨h1, h2⟩
    · simp [h]
    · subst h1; simp [h2]
  have hmodel : getMonthSheetGIDModel tY tM todayY todayM none api =
      .error (futureMonthMsg (monthNamesReadable.getD tM "")
        (monthNamesUpper.getD tM "") (toString tY)) := by
    cases api with
    | none => simp [getMonthSheetGIDModel, hfut]
    | some sheets =>
      have h2 : sheets.find? (fun s =>
          jsIncludes (jsToUpper s.title) (monthNamesUpper.getD tM "")) = none :=
        List.find?_eq_none.mpr (fun s hs => by
          simp only [hapi s (by simpa using hs)]
          simp)
      have h1 : sheets.find? (fun s =>
          jsIncludes (jsToUpper s.title) (monthNamesUpper.getD tM "")
            && (jsIncludes (jsToUpper s.title) (toString tY) || (tM == todayM)))
            = none :=
        List.find?_eq_none.mpr (fun s hs => by
          simp only [hapi s (by simpa using hs)]
          simp)
      simp only [getMonthSheetGIDModel, apiFindSheet, h1, h2, Option.map_none]
      simp [hfut]
  refine ⟨?_, (futureMonthMsg_occurrences _ _ _).1,
    (futureMonthMsg_occurrences _ _ _).2.1⟩
  unfold getMonthSheetGIDWrapped
  rw [hmodel]
  simp [(futureMonthMsg_occurrences _ _ _).2.2]

/-- C9 witness: November 2026 requested in August 2026, with no CSV match
and a metadata query returning only an "AUGUST 2026" tab; the message names
"NOVEMBER 2026" and "November 2026". -/
theorem getMonthSheetGID_future_no_tab_witness :
    getMonthSheetGIDWrapped 2026 10 2026 7 none
        (some [⟨"AUGUST 2026", "123"⟩]) =
      .error (futureMonthMsg "November" "NOVEMBER" "2026")
    ∧ jsIncludes (futureMonthMsg "November" "NOVEMBER" "2026")
        ("NOVEMBER" ++ " " ++ "2026") = true
    ∧ jsIncludes (futureMonthMsg "November" "NOVEMBER" "2026")
        ("November" ++ " " ++ "2026") = true :=
  getMonthSheetGID_future_no_tab 2026 10 2026 7
    (some [⟨"AUGUST 2026", "123"⟩]) (by omega) (by decide)

theorem findIdx_eq_of_first {α : Type} (p : α → Bool) (d : α) :
    ∀ (l : List α) (i : Nat), i < l.length → p (l.getD i d) = true →
      (∀ k, k < i → p (l.getD k d) = false) → l.findIdx p = i := by
  intro l
  induction l with
  | nil => intro i hi; simp at hi
  | cons a t ih =>
    intro i hi hp hk
    cases i with
    | zero =>
      have : p a = true := hp
      simp [List.findIdx_cons, this]
    | succ i =>
      have h0 : p a = false := hk 0 (by omega)
      rw [List.findIdx_cons, h0]
      have := ih i (by simpa using hi) hp (fun k hki => hk (k + 1) (by omega))
      simp [this]

theorem findIdx_eq_length_of_all {α : Type} (p : α → Bool) (d : α) :
    ∀ (l : List α), (∀ k, k < l.length → p (l.getD k d) = false) →
      l.findIdx p = l.length := by
  intro l
  induction l with
  | nil => intro _; rfl
  | cons a t ih =>
    intro hk
    have h0 : p a = false := hk 0 (by simp)
    rw [List.findIdx_cons, h0]
    have := ih (fun k hki => hk (k + 1) (by simpa using hki))
    simp [this]

theorem getLastD_eq_getD {α : Type} (d : α) :
    ∀ (l : List α), l ≠ [] → l.getLastD d = l.getD (l.length - 1) d := by
  intro l
  induction l with
  | nil => intro h; exact absurd rfl h
  | cons a t ih =>
    intro _
    cases t with
    | nil => rfl
    | cons b u =>
      have := ih (by simp)
      simpa [List.getLastD_cons, List.getD] using this

theorem lastDataRowGo_eq_some (colA : List String) (j : Nat) :
    ∀ n, j < n → jsTrim (colA.getD j "") ≠ "" →
      (∀ k, j < k → k < n → jsTrim (colA.getD k "") = "") →
      lastDataRowGo colA n = some j := by
  intro n
  induction n with
  | zero => intro h; omega
  | succ n ih =>
    intro hjn hne hafter
    rw [lastDataRowGo]
    by_cases hc : jsTrim (colA.getD n "") = ""
    · have hj : j ≠ n := fun h => hne (h ▸ hc)
      rw [if_neg (by simp only [ne_eq, not_not]; exact hc)]
      exact ih (by omega) hne (fun k h1 h2 => hafter k h1 (by omega))
    · have hj : j = n := by
        by_contra hne2
        have hjn2 : j < n := by omega
        exact hc (hafter n (by omega) (by omega))
      rw [if_pos hc, hj]

theorem lastDataRowGo_eq_none (colA : List String) :
    ∀ n, (∀ k, k < n → jsTrim (colA.getD k "") = "") →
      lastDataRowGo colA n = none := by
  intro n
  induction n with
  | zero => intro _; rfl
  | succ n ih =>
    intro hall
    rw [lastDataRowGo, if_neg (by simp only [ne_eq, not_not]; exact hall n (by omega))]
    exact ih (fun k hk => hall k (by omega))

theorem headD_eq_getD {α : Type} (d : α) (l : List α) :
    l.headD d = l.getD 0 d := by
  cases l <;> rfl

/-- C3. Under the sheet's own ordering invariant — the rows sharing the
target date occupy consecutive sheet rows, already sorted ascending by
parsed start time with unparseable-time rows last — `createBooking` inserts
(i) immediately before the first same-date row whose start time is `≥` the
candidate's start time, (ii) after the date's last row when no row
qualifies, (iii) immediately after the last row containing any data when no
row has the target date, and (iv) at row 6 (the first data row) when the
data region is empty. -/
theorem createBooking_insert_position
    (rows : List (List String)) (colA : List String) (targetDate : String)
    (newStart : Int)
    (hsorted : List.Sorted rowLe (collectSameDate rows targetDate))
    (hcontig : ∀ j, j + 1 < (collectSameDate rows targetDate).length →
      ((collectSameDate rows targetDate).getD (j + 1) ⟨0, none⟩).rowNumber =
        ((collectSameDate rows targetDate).getD j ⟨0, none⟩).rowNumber + 1) :
    ((∀ i, i < (collectSameDate rows targetDate).length →
        qualB newStart ((collectSameDate rows targetDate).getD i ⟨0, none⟩) = true →
        (∀ k, k < i →
          qualB newStart ((collectSameDate rows targetDate).getD k ⟨0, none⟩)
            = false) →
        computeInsertRowIndex rows colA targetDate newStart =
          ((collectSameDate rows targetDate).getD i ⟨0, none⟩).rowNumber)
     ∧ (collectSameDate rows targetDate ≠ [] →
        (∀ k, k < (collectSameDate rows targetDate).length →
          qualB newStart ((collectSameDate rows targetDate).getD k ⟨0, none⟩)
            = false) →
        computeInsertRowIndex rows colA targetDate newStart =
          ((collectSameDate rows targetDate).getLastD ⟨0, none⟩).rowNumber + 1))
    ∧ (collectSameDate rows targetDate = [] →
       ((∀ j, j < colA.length → jsTrim (colA.getD j "") ≠ "" →
          (∀ k, j < k → k < colA.length → jsTrim (colA.getD k "") = "") →
          computeInsertRowIndex rows colA targetDate newStart = 6 + j + 1)
        ∧ ((∀ k, k < colA.length → jsTrim (colA.getD k "") = "") →
          computeInsertRowIndex rows colA targetDate newStart = 6))) := by
  have hci : computeInsertRowIndex rows colA targetDate newStart =
      (if (collectSameDate rows targetDate).isEmpty then
        match lastDataRow colA with
        | some i => 6 + i + 1
        | none => 6
      else
        if (collectSameDate rows targetDate).findIdx (qualB newStart) == 0 then
          ((collectSameDate rows targetDate).headD ⟨0, none⟩).rowNumber
        else
          ((collectSameDate rows targetDate).getD
            ((collectSameDate rows targetDate).findIdx (qualB newStart) - 1)
            ⟨0, none⟩).rowNumber + 1) := by
    unfold computeInsertRowIndex
    rw [hsorted.insertionSort_eq]
  constructor
  · constructor
    · intro i hi hq hk
      rw [hci]
      have hlen : (collectSameDate rows targetDate).isEmpty = false := by
        cases hsd : collectSameDate rows targetDate with
        | nil => rw [hsd] at hi; simp at hi
        | cons a t => rfl
      rw [if_neg (by simp [hlen])]
      have hpos : (collectSameDate rows targetDate).findIdx (qualB newStart) = i :=
        findIdx_eq_of_first _ ⟨0, none⟩ _ i hi hq hk
      rw [hpos]
      cases i with
      | zero =>
        rw [if_pos (show ((0 : Nat) == 0) = true from rfl), headD_eq_getD]
      | succ i =>
        rw [if_neg (by simp)]
        simp only [Nat.add_sub_cancel]
        have := hcontig i (by omega)
        omega
    · intro hne hall
      rw [hci]
      have hlen : (collectSameDate rows targetDate).isEmpty = false := by
        cases hsd : collectSameDate rows targetDate with
        | nil => exact absurd hsd hne
        | cons a t => rfl
      rw [if_neg (by simp [hlen])]
      have hpos : (collectSameDate rows targetDate).findIdx (qualB newStart) =
          (collectSameDate rows targetDate).length :=
        findIdx_eq_length_of_all _ ⟨0, none⟩ _ hall
      rw [hpos]
      have hlpos : 0 < (collectSameDate rows targetDate).length :=
        List.length_pos.mpr hne
      rw [if_neg (by simp only [beq_iff_eq]; omega)]
      rw [getLastD_eq_getD _ _ hne]
  · intro hempty
    have hlen : (collectSameDate rows targetDate).isEmpty = true := by
      rw [hempty]; rfl
    constructor
    · intro j hj hne hafter
      rw [hci, if_pos hlen]
      rw [show lastDataRow colA = some j from
        lastDataRowGo_eq_some colA j colA.length hj hne
          (fun k h1 h2 => hafter k h1 h2)]
    · intro hall
      rw [hci, if_pos hlen]
      rw [show lastDataRow colA = none from
        lastDataRowGo_eq_none colA colA.length hall]

/-- C3 witness: rows for day "5" at 09:00 (sheet row 6) and 11:00 (row 7),
candidate start 10:00 on day "5" → insert at row 7 (before the 11:00 row);
plus the no-date and empty-table fallbacks on the same data. -/
theorem createBooking_insert_position_witness :
    ((∀ i, i < (collectSameDate
          [["5", "Mon", "A", "TRUE", "", "9:00", "9:30", "", ""],
           ["5", "Mon", "B", "TRUE", "", "11:00", "11:30", "", ""],
           ["6", "Tue", "C", "TRUE", "", "8:00", "8:30", "", ""]] "5").length →
        qualB 600 ((collectSameDate
          [["5", "Mon", "A", "TRUE", "", "9:00", "9:30", "", ""],
           ["5", "Mon", "B", "TRUE", "", "11:00", "11:30", "", ""],
           ["6", "Tue", "C", "TRUE", "", "8:00", "8:30", "", ""]] "5").getD i
            ⟨0, none⟩) = true →
        (∀ k, k < i →
          qualB 600 ((collectSameDate
            [["5", "Mon", "A", "TRUE", "", "9:00", "9:30", "", ""],
             ["5", "Mon", "B", "TRUE", "", "11:00", "11:30", "", ""],
             ["6", "Tue", "C", "TRUE", "", "8:00", "8:30", "", ""]] "5").getD k
              ⟨0, none⟩) = false) →
        computeInsertRowIndex
          [["5", "Mon", "A", "TRUE", "", "9:00", "9:30", "", ""],
           ["5", "Mon", "B", "TRUE", "", "11:00", "11:30", "", ""],
           ["6", "Tue", "C", "TRUE", "", "8:00", "8:30", "", ""]]
          ["5", "5", "6"] "5" 600 =
          ((collectSameDate
            [["5", "Mon", "A", "TRUE", "", "9:00", "9:30", "", ""],
             ["5", "Mon", "B", "TRUE", "", "11:00", "11:30", "", ""],
             ["6", "Tue", "C", "TRUE", "", "8:00", "8:30", "", ""]] "5").getD i
              ⟨0, none⟩).rowNumber)
     ∧ (collectSameDate
          [["5", "Mon", "A", "TRUE", "", "9:00", "9:30", "", ""],
           ["5", "Mon", "B", "TRUE", "", "11:00", "11:30", "", ""],
           ["6", "Tue", "C", "TRUE", "", "8:00", "8:30", "", ""]] "5" ≠ [] →
        (∀ k, k < (collectSameDate
            [["5", "Mon", "A", "TRUE", "", "9:00", "9:30", "", ""],
             ["5", "Mon", "B", "TRUE", "", "11:00", "11:30", "", ""],
             ["6", "Tue", "C", "TRUE", "", "8:00", "8:30", "", ""]] "5").length →
          qualB 600 ((collectSameDate
            [["5", "Mon", "A", "TRUE", "", "9:00", "9:30", "", ""],
             ["5", "Mon", "B", "TRUE", "", "11:00", "11:30", "", ""],
             ["6", "Tue", "C", "TRUE", "", "8:00", "8:30", "", ""]] "5").getD k
              ⟨0, none⟩) = false) →
        computeInsertRowIndex
          [["5", "Mon", "A", "TRUE", "", "9:00", "9:30", "", ""],
           ["5", "Mon", "B", "TRUE", "", "11:00", "11:30", "", ""],
           ["6", "Tue", "C", "TRUE", "", "8:00", "8:30", "", ""]]
          ["5", "5", "6"] "5" 600 =
          ((collectSameDate
            [["5", "Mon", "A", "TRUE", "", "9:00", "9:30", "", ""],
             ["5", "Mon", "B", "TRUE", "", "11:00", "11:30", "", ""],
             ["6", "Tue", "C", "TRUE", "", "8:00", "8:30", "", ""]] "5").getLastD
              ⟨0, none⟩).rowNumber + 1))
    ∧ (collectSameDate
        [["5", "Mon", "A", "TRUE", "", "9:00", "9:30", "", ""],
         ["5", "Mon", "B", "TRUE", "", "11:00", "11:30", "", ""],
         ["6", "Tue", "C", "TRUE", "", "8:00", "8:30", "", ""]] "5" = [] →
       ((∀ j, j < (["5", "5", "6"] : List String).length →
          jsTrim ((["5", "5", "6"] : List String).getD j "") ≠ "" →
          (∀ k, j < k → k < (["5", "5", "6"] : List String).length →
            jsTrim ((["5", "5", "6"] : List String).getD k "") = "") →
          computeInsertRowIndex
            [["5", "Mon", "A", "TRUE", "", "9:00", "9:30", "", ""],
             ["5", "Mon", "B", "TRUE", "", "11:00", "11:30", "", ""],
             ["6", "Tue", "C", "TRUE", "", "8:00", "8:30", "", ""]]
            ["5", "5", "6"] "5" 600 = 6 + j + 1)
        ∧ ((∀ k, k < (["5", "5", "6"] : List String).length →
            jsTrim ((["5", "5", "6"] : List String).getD k "") = "") →
          computeInsertRowIndex
            [["5", "Mon", "A", "TRUE", "", "9:00", "9:30", "", ""],
             ["5", "Mon", "B", "TRUE", "", "11:00", "11:30", "", ""],
             ["6", "Tue", "C", "TRUE", "", "8:00", "8:30", "", ""]]
            ["5", "5", "6"] "5" 600 = 6))) := by
  exact createBooking_insert_position
    [["5", "Mon", "A", "TRUE", "", "9:00", "9:30", "", ""],
     ["5", "Mon", "B", "TRUE", "", "11:00", "11:30", "", ""],
     ["6", "Tue", "C", "TRUE", "", "8:00", "8:30", "", ""]]
    ["5", "5", "6"] "5" 600 (by decide)
    (by
      intro j hj
      have hj1 : j = 0 := by
        have : (collectSameDate
          [["5", "Mon", "A", "TRUE", "", "9:00", "9:30", "", ""],
           ["5", "Mon", "B", "TRUE", "", "11:00", "11:30", "", ""],
           ["6", "Tue", "C", "TRUE", "", "8:00", "8:30", "", ""]] "5").length = 2 :=
          by decide
        omega
      subst hj1
      decide)

theorem applyReqs_append (sheet : Nat → List String)
    (a b : List (Nat × List String)) :
    applyReqs sheet (a ++ b) = applyReqs (applyReqs sheet a) b := by
  simp [applyReqs, List.foldl_append]

theorem applyReqs_untouched (reqs : List (Nat × List String))
    (sheet : Nat → List String) (n : Nat) (h : ∀ p ∈ reqs, p.1 ≠ n) :
    applyReqs sheet reqs n = sheet n := by
  induction reqs generalizing sheet with
  | nil => rfl
  | cons p rest ih =>
    calc applyReqs sheet (p :: rest) n
        = applyReqs (fun m => if m = p.1 then p.2 else sheet m) rest n := rfl
      _ = (fun m => if m = p.1 then p.2 else sheet m) n :=
          ih _ (fun q hq => h q (List.mem_cons_of_mem p hq))
      _ = sheet n := by simp [Ne.symm (h p (List.mem_cons_self p rest))]

theorem shiftReqsAux_targets (values : List (List String)) (k : Nat) :
    ∀ sourceRow p, p ∈ shiftReqsAux values sourceRow k →
      ∃ j, j < k ∧ p.1 = sourceRow + j - 1 := by
  induction k with
  | zero => intro sourceRow p hp; cases hp
  | succ k ih =>
    intro sourceRow p hp
    rw [shiftReqsAux] at hp
    rcases List.mem_cons.mp hp with h | h
    · exact ⟨0, by omega, by subst h; simp⟩
    · obtain ⟨j, hj, hjp⟩ := ih (sourceRow + 1) p h
      exact ⟨j + 1, by omega, by omega⟩

theorem applyReqs_shift (values : List (List String)) (k : Nat) :
    ∀ sourceRow sheet n, 1 ≤ sourceRow → sourceRow - 1 ≤ n →
      n < sourceRow - 1 + k →
      applyReqs sheet (shiftReqsAux values sourceRow k) n =
        pad7 (values.getD n []) := by
  induction k with
  | zero => intro sourceRow sheet n _ _ h; omega
  | succ k ih =>
    intro sourceRow sheet n h1 h2 h3
    rw [shiftReqsAux, applyReqs, List.foldl_cons]
    by_cases hn : n = sourceRow - 1
    · rw [← applyReqs]
      rw [applyReqs_untouched _ _ _ (fun p hp => by
        obtain ⟨j, hj, hjp⟩ := shiftReqsAux_targets values k (sourceRow + 1) p hp
        omega)]
      subst hn
      simp
    · rw [← applyReqs]
      have := ih (sourceRow + 1)
        (fun m => if m = sourceRow - 1 then pad7 (values.getD (sourceRow - 1) [])
          else sheet m) n (by omega) (by omega) (by omega)
      exact this

theorem applyReqs_shift_out (values : List (List String)) (k : Nat)
    (sourceRow : Nat) (sheet : Nat → List String) (n : Nat)
    (h1 : 1 ≤ sourceRow) (h : n < sourceRow - 1 ∨ sourceRow - 1 + k ≤ n) :
    applyReqs sheet (shiftReqsAux values sourceRow k) n = sheet n :=
  applyReqs_untouched _ _ _ (fun p hp => by
    obtain ⟨j, hj, hjp⟩ := shiftReqsAux_targets values k sourceRow p hp
    omega)

/-- C7. Let `L` be the last fixed-schedule row found by the region scan.
When the deleted row `rowNum` lies strictly above `L`, applying
`deleteFixedSchedule`'s requests shifts every fixed-schedule row below the
deleted one up by one position (row `r` receives old row `r+1`'s values for
`rowNum ≤ r < L`), clears the previously-last row `L`, and touches nothing
else — so the remaining fixed-schedule rows are contiguous with no blank gap
row above the header; when `rowNum` is the last (or only) fixed-schedule
row, the requests simply clear that row. -/
theorem deleteFixedSchedule_compaction (values : List (List String))
    (rowNum : Nat) (hne : values ≠ []) :
    ((rowNum < lastFixedScheduleRow values rowNum →
      (∀ r, rowNum ≤ r → r < lastFixedScheduleRow values rowNum →
        applyReqs (sheetOf values) (deleteFixedScheduleRequests values rowNum) r
          = pad7 (values.getD r []))
      ∧ applyReqs (sheetOf values) (deleteFixedScheduleRequests values rowNum)
          (lastFixedScheduleRow values rowNum) = blank7
      ∧ (∀ r, r < rowNum ∨ lastFixedScheduleRow values rowNum < r →
          applyReqs (sheetOf values) (deleteFixedScheduleRequests values rowNum) r
            = sheetOf values r))
    ∧ (¬rowNum < lastFixedScheduleRow values rowNum →
      applyReqs (sheetOf values) (deleteFixedScheduleRequests values rowNum)
          rowNum = blank7
      ∧ (∀ r, r ≠ rowNum →
          applyReqs (sheetOf values) (deleteFixedScheduleRequests values rowNum) r
            = sheetOf values r))) := by
  have hreq : deleteFixedScheduleRequests values rowNum =
      if rowNum < lastFixedScheduleRow values rowNum
        then shiftReqsAux values (rowNum + 1)
            (lastFixedScheduleRow values rowNum - rowNum)
          ++ [(lastFixedScheduleRow values rowNum, blank7)]
        else [(rowNum, blank7)] := by
    unfold deleteFixedScheduleRequests
    have hve : values.isEmpty = false := by
      cases values with
      | nil => exact absurd rfl hne
      | cons a l => rfl
    rw [hve]
    by_cases h : rowNum < lastFixedScheduleRow values rowNum <;> simp [h]
  constructor
  · intro hlt
    rw [hreq, if_pos hlt]
    refine ⟨?_, ?_, ?_⟩
    · intro r hr1 hr2
      rw [applyReqs_append]
      rw [applyReqs_untouched _ _ _ (fun p hp => by
        rw [List.mem_singleton] at hp
        rw [hp]
        omega)]
      exact applyReqs_shift values _ (rowNum + 1) _ r (by omega) (by omega)
        (by omega)
    · rw [applyReqs_append]
      rw [applyReqs]
      rw [List.foldl_cons, List.foldl_nil]
      simp
    · intro r hr
      rw [applyReqs_append]
      rw [applyReqs_untouched _ _ _ (fun p hp => by
        rw [List.mem_singleton] at hp
        rw [hp]
        omega)]
      exact applyReqs_shift_out values _ (rowNum + 1) _ r (by omega) (by omega)
  · intro hge
    rw [hreq, if_neg hge]
    constructor
    · rw [applyReqs, List.foldl_cons, List.foldl_nil]
      simp
    · intro r hr
      exact applyReqs_untouched _ _ _ (fun p hp => by
        rw [List.mem_singleton] at hp
        rw [hp]
        exact Ne.symm hr)

/-- C7 witness: a 3-row fixed-schedule region above the booking-table header;
deleting the middle row (row 2) leaves rows 1–2 holding the old rows 1 and 3
and clears row 3 — exactly 2 contiguous fixed-schedule rows remain. -/
theorem deleteFixedSchedule_compaction_witness :
    ((2 < lastFixedScheduleRow
        [["Team A", "NHA TRANG", "", "9:00", "9:30", "", ""],
         ["Team B", "NHA TRANG", "", "10:00", "10:30", "", ""],
         ["Team C", "DA LAT", "", "11:00", "11:30", "", ""],
         ["BOOKING STAFF", "MEETING ROOM NHA TRANG", "", "", "", "", ""]] 2 →
      (∀ r, 2 ≤ r → r < lastFixedScheduleRow
          [["Team A", "NHA TRANG", "", "9:00", "9:30", "", ""],
           ["Team B", "NHA TRANG", "", "10:00", "10:30", "", ""],
           ["Team C", "DA LAT", "", "11:00", "11:30", "", ""],
           ["BOOKING STAFF", "MEETING ROOM NHA TRANG", "", "", "", "", ""]] 2 →
        applyReqs (sheetOf
          [["Team A", "NHA TRANG", "", "9:00", "9:30", "", ""],
           ["Team B", "NHA TRANG", "", "10:00", "10:30", "", ""],
           ["Team C", "DA LAT", "", "11:00", "11:30", "", ""],
           ["BOOKING STAFF", "MEETING ROOM NHA TRANG", "", "", "", "", ""]])
          (deleteFixedScheduleRequests
            [["Team A", "NHA TRANG", "", "9:00", "9:30", "", ""],
             ["Team B", "NHA TRANG", "", "10:00", "10:30", "", ""],
             ["Team C", "DA LAT", "", "11:00", "11:30", "", ""],
             ["BOOKING STAFF", "MEETING ROOM NHA TRANG", "", "", "", "", ""]] 2) r
          = pad7 ([["Team A", "NHA TRANG", "", "9:00", "9:30", "", ""],
             ["Team B", "NHA TRANG", "", "10:00", "10:30", "", ""],
             ["Team C", "DA LAT", "", "11:00", "11:30", "", ""],
             ["BOOKING STAFF", "MEETING ROOM NHA TRANG", "", "", "", "", ""]].getD r []))
      ∧ applyReqs (sheetOf
          [["Team A", "NHA TRANG", "", "9:00", "9:30", "", ""],
           ["Team B", "NHA TRANG", "", "10:00", "10:30", "", ""],
           ["Team C", "DA LAT", "", "11:00", "11:30", "", ""],
           ["BOOKING STAFF", "MEETING ROOM NHA TRANG", "", "", "", "", ""]])
          (deleteFixedScheduleRequests
            [["Team A", "NHA TRANG", "", "9:00", "9:30", "", ""],
             ["Team B", "NHA TRANG", "", "10:00", "10:30", "", ""],
             ["Team C", "DA LAT", "", "11:00", "11:30", "", ""],
             ["BOOKING STAFF", "MEETING ROOM NHA TRANG", "", "", "", "", ""]] 2)
          (lastFixedScheduleRow
            [["Team A", "NHA TRANG", "", "9:00", "9:30", "", ""],
             ["Team B", "NHA TRANG", "", "10:00", "10:30", "", ""],
             ["Team C", "DA LAT", "", "11:00", "11:30", "", ""],
             ["BOOKING STAFF", "MEETING ROOM NHA TRANG", "", "", "", "", ""]] 2)
          = blank7
      ∧ (∀ r, r < 2 ∨ lastFixedScheduleRow
            [["Team A", "NHA TRANG", "", "9:00", "9:30", "", ""],
             ["Team B", "NHA TRANG", "", "10:00", "10:30", "", ""],
             ["Team C", "DA LAT", "", "11:00", "11:30", "", ""],
             ["BOOKING STAFF", "MEETING ROOM NHA TRANG", "", "", "", "", ""]] 2 < r →
          applyReqs (sheetOf
            [["Team A", "NHA TRANG", "", "9:00", "9:30", "", ""],
             ["Team B", "NHA TRANG", "", "10:00", "10:30", "", ""],
             ["Team C", "DA LAT", "", "11:00", "11:30", "", ""],
             ["BOOKING STAFF", "MEETING ROOM NHA TRANG", "", "", "", "", ""]])
            (deleteFixedScheduleRequests
              [["Team A", "NHA TRANG", "", "9:00", "9:30", "", ""],
               ["Team B", "NHA TRANG", "", "10:00", "10:30", "", ""],
               ["Team C", "DA LAT", "", "11:00", "11:30", "", ""],
               ["BOOKING STAFF", "MEETING ROOM NHA TRANG", "", "", "", "", ""]] 2) r
            = sheetOf
              [["Team A", "NHA TRANG", "", "9:00", "9:30", "", ""],
               ["Team B", "NHA TRANG", "", "10:00", "10:30", "", ""],
               ["Team C", "DA LAT", "", "11:00", "11:30", "", ""],
               ["BOOKING STAFF", "MEETING ROOM NHA TRANG", "", "", "", "", ""]] r))
    ∧ (¬2 < lastFixedScheduleRow
        [["Team A", "NHA TRANG", "", "9:00", "9:30", "", ""],
         ["Team B", "NHA TRANG", "", "10:00", "10:30", "", ""],
         ["Team C", "DA LAT", "", "11:00", "11:30", "", ""],
         ["BOOKING STAFF", "MEETING ROOM NHA TRANG", "", "", "", "", ""]] 2 →
      applyReqs (sheetOf
          [["Team A", "NHA TRANG", "", "9:00", "9:30", "", ""],
           ["Team B", "NHA TRANG", "", "10:00", "10:30", "", ""],
           ["Team C", "DA LAT", "", "11:00", "11:30", "", ""],
           ["BOOKING STAFF", "MEETING ROOM NHA TRANG", "", "", "", "", ""]])
          (deleteFixedScheduleRequests
            [["Team A", "NHA TRANG", "", "9:00", "9:30", "", ""],
             ["Team B", "NHA TRANG", "", "10:00", "10:30", "", ""],
             ["Team C", "DA LAT", "", "11:00", "11:30", "", ""],
             ["BOOKING STAFF", "MEETING ROOM NHA TRANG", "", "", "", "", ""]] 2) 2
          = blank7
      ∧ (∀ r, r ≠ 2 →
          applyReqs (sheetOf
            [["Team A", "NHA TRANG", "", "9:00", "9:30", "", ""],
             ["Team B", "NHA TRANG", "", "10:00", "10:30", "", ""],
             ["Team C", "DA LAT", "", "11:00", "11:30", "", ""],
             ["BOOKING STAFF", "MEETING ROOM NHA TRANG", "", "", "", "", ""]])
            (deleteFixedScheduleRequests
              [["Team A", "NHA TRANG", "", "9:00", "9:30", "", ""],
               ["Team B", "NHA TRANG", "", "10:00", "10:30", "", ""],
               ["Team C", "DA LAT", "", "11:00", "11:30", "", ""],
               ["BOOKING STAFF", "MEETING ROOM NHA TRANG", "", "", "", "", ""]] 2) r
            = sheetOf
              [["Team A", "NHA TRANG", "", "9:00", "9:30", "", ""],
               ["Team B", "NHA TRANG", "", "10:00", "10:30", "", ""],
               ["Team C", "DA LAT", "", "11:00", "11:30", "", ""],
               ["BOOKING STAFF", "MEETING ROOM NHA TRANG", "", "", "", "", ""]] r))) :=
  deleteFixedSchedule_compaction
    [["Team A", "NHA TRANG", "", "9:00", "9:30", "", ""],
     ["Team B", "NHA TRANG", "", "10:00", "10:30", "", ""],
     ["Team C", "DA LAT", "", "11:00", "11:30", "", ""],
     ["BOOKING STAFF", "MEETING ROOM NHA TRANG", "", "", "", "", ""]] 2
    (by decide)

end MRB
